import Mathlib

/-!
Formal model of the st7789-dashboard repository.

The Python sources under src/ are shallowly embedded as Lean definitions:

* Python numbers (ints and floats) are modelled as exact `ℤ`/`ℚ` values;
  `int(...)` is truncation toward zero (`pyInt`), `//` is floor division
  (`pyFloorDiv`), and a float division whose divisor is zero is modelled by
  `Option`, `none` standing for a `ZeroDivisionError` escaping the routine.
* Drawing primitives (`draw_line`, `draw_rectangle`, `draw_text` of
  `ST7789Display`, src/drivers/st7789_display_driver.py) are reified as a
  `DrawCall` datatype; a rendering routine is a function returning the list
  of draw calls it issues, in order.
* File and OS reads performed inside each metric getter's `try` block are
  modelled by an `Option` argument holding the parsed values; `none` covers
  any exception caught by the getter's `except` clause.
-/

namespace ST7789

/-- Python `int(x)` on an exact rational: truncation toward zero. -/
def pyInt (q : ℚ) : ℤ := if q < 0 then ⌈q⌉ else ⌊q⌋

/-- Python float true division; `none` models a `ZeroDivisionError`. -/
def pydiv (a b : ℚ) : Option ℚ := if b = 0 then none else some (a / b)

/-- Python integer floor division `a // b`. -/
def pyFloorDiv (a b : ℤ) : ℤ := Int.fdiv a b

/-- Python `range(start, stop, step)` as a list of integers (`step ≠ 0`). -/
def pyRange (start stop step : ℤ) : List ℤ :=
  if 0 < step then
    (List.range ((stop - start + step - 1).toNat / step.toNat)).map
      (fun k => start + k * step)
  else if step < 0 then
    (List.range ((start - stop + (-step) - 1).toNat / (-step).toNat)).map
      (fun k => start + k * step)
  else []

/-- Python `round(x, 1)` on an exact rational (round half to even). -/
def pyRound1 (q : ℚ) : ℚ :=
  let s : ℚ := q * 10
  let f : ℤ := ⌊s⌋
  let r : ℤ :=
    if s - f < 1/2 then f
    else if 1/2 < s - f then f + 1
    else if f % 2 = 0 then f else f + 1
  (r : ℚ) / 10

/-- Abstraction of Python float formatting inside f-strings; the exact
rendering of a number as text is irrelevant to every claim. -/
def pyFloatRepr (q : ℚ) : String := toString q

/-- RGB color triple, as the Python tuples used throughout the sources. -/
abbrev Color := ℤ × ℤ × ℤ

/-- Color constants of `ST7789Display.__init__` (driver lines 67-74). -/
def BLACK : Color := (0, 0, 0)

def WHITE : Color := (255, 255, 255)

def GREEN : Color := (0, 255, 0)

def RED : Color := (255, 0, 0)

def YELLOW : Color := (255, 255, 0)

def CYAN : Color := (0, 255, 255)

def BLUE : Color := (0, 0, 255)

def MAGENTA : Color := (255, 0, 255)

/-- The four fonts loaded by `ST7789Display._load_fonts`. -/
inductive Font where
  | xlarge
  | large
  | medium
  | small
deriving DecidableEq

/-- One primitive drawing operation issued against the pixel buffer, the
reification of the `ImageDraw` calls made by `ST7789Display.draw_line`,
`draw_rectangle` and `draw_text`. -/
inductive DrawCall where
  | line (x1 y1 x2 y2 : ℚ) (color : Color) (width : ℤ)
  | rect (x1 y1 x2 y2 : ℚ) (outline : Option Color) (fill : Option Color)
  | text (x y : ℚ) (s : String) (font : Font) (color : Color) (anchor : String)
deriving DecidableEq

/-- `ST7789Display.draw_line` (driver lines 159-163): a `None` color
defaults to white. -/
def drawLine (x1 y1 x2 y2 : ℚ) (color : Option Color) (width : ℤ) : DrawCall :=
  DrawCall.line x1 y1 x2 y2 (color.getD WHITE) width

/-- `ST7789Display.draw_rectangle` (driver lines 165-171): the outline is
`outline or color`, where a `None` `color` has already defaulted to white. -/
def drawRectangle (x1 y1 x2 y2 : ℚ) (color outline fill : Option Color) : DrawCall :=
  DrawCall.rect x1 y1 x2 y2 (some (outline.getD (color.getD WHITE))) fill

/-- `ST7789Display.draw_text` (driver lines 151-157): `None` font defaults
to medium, `None` color to white; the default anchor is passed by callers. -/
def drawText (x y : ℚ) (s : String) (font : Option Font) (color : Option Color)
    (anchor : String) : DrawCall :=
  DrawCall.text x y s (font.getD Font.medium) (color.getD WHITE) anchor

/-- The 16-bit RGB565 word computed for one pixel by
`ST7789Display._convert_to_rgb565` (driver lines 190-194):
`pixel = (r >> 3) << 11 | (g >> 2) << 5 | (b >> 3)`. -/
def rgb565Word (r g b : ℕ) : ℕ :=
  (((r >>> 3) <<< 11) ||| ((g >>> 2) <<< 5)) ||| (b >>> 3)

/-- `ST7789Display._convert_to_rgb565` (driver lines 184-198): walk the flat
RGB888 byte list three bytes at a time, emitting the RGB565 word high byte
first (`pixel >> 8`, then `pixel & 0xFF`).  A trailing group of one or two
bytes would raise an `IndexError` in the source (`none`); the real input is
always `3 * width * height` bytes long. -/
def convertToRGB565 : List ℕ → Option (List ℕ)
  | [] => some []
  | r :: g :: b :: rest =>
    (convertToRGB565 rest).map
      (fun t => (rgb565Word r g b) >>> 8 :: ((rgb565Word r g b) &&& 0xFF) :: t)
  | _ => none

/-- The fixed transfer chunk size of `ST7789Display._send_image_data`
(driver line 213). -/
def chunkSize : ℕ := 4096

/-- The bulk-data loop of `ST7789Display._send_image_data` (driver lines
214-216): `for i in range(0, len(image_data), chunk_size)` slices
`image_data[i : i + chunk_size]` and writes each slice to the bus.  The
result is the list of written chunks, in write order. -/
def sendImageDataChunks (l : List ℕ) : List (List ℕ) :=
  if h : l = [] then []
  else l.take chunkSize :: sendImageDataChunks (l.drop chunkSize)
termination_by l.length
decreasing_by
  simp only [List.length_drop]
  have hl : 0 < l.length := List.length_pos.mpr h
  simp [chunkSize]
  omega

/-- Capacity of every history ring: `deque(maxlen=20)`
(src/dashboards/st7789_carousel_dashboard.py lines 35-41). -/
def historyMaxlen : ℕ := 20

/-- One `history[key].append(value)` step (carousel dashboard lines 89-94):
the semantics of `collections.deque(maxlen=20).append` on a deque holding at
most 20 items — append on the right, and when already at capacity silently
discard the leftmost (oldest) element first. -/
def dequeAppend (q : List ℚ) (v : ℚ) : List ℚ :=
  if q.length < historyMaxlen then q ++ [v] else q.tail ++ [v]

/-- `get_cpu_usage` (driver lines 225-240).  The argument holds the five
fields parsed from the first line of /proc/stat; `none` covers any exception
caught by the `except` clause, which returns 0.0.  A zero total inside the
`try` body is likewise caught. -/
def getCpuUsage (raw : Option (ℚ × ℚ × ℚ × ℚ × ℚ)) : ℚ :=
  match raw with
  | none => 0
  | some (user, nice, system, idle, iowait) =>
    let total := user + nice + system + idle + iowait
    let busy := user + nice + system
    match pydiv busy total with
    | none => 0
    | some q => pyRound1 (q * 100)

/-- `get_memory_usage` (driver lines 243-258).  The argument holds the
MemTotal and MemFree fields parsed from /proc/meminfo in kB. -/
def getMemoryUsage (raw : Option (ℤ × ℤ)) : ℚ :=
  match raw with
  | none => 0
  | some (total, free) =>
    let used := total - free
    match pydiv (used : ℚ) (total : ℚ) with
    | none => 0
    | some q => pyRound1 (q * 100)

/-- `get_temperature` (driver lines 261-268); the argument is the integer
millidegree reading of thermal_zone0. -/
def getTemperature (raw : Option ℤ) : ℚ :=
  match raw with
  | none => 0
  | some t => pyRound1 ((t : ℚ) / 1000)

/-- `get_gpu_temperature` (driver lines 271-279); the argument is the float
parsed out of the vcgencmd output. -/
def getGpuTemperature (raw : Option ℚ) : ℚ :=
  match raw with
  | none => 0
  | some t => pyRound1 t

/-- Result record of `get_disk_usage` (driver lines 282-292). -/
structure DiskUsage where
  percent : ℚ
  used : ℚ
  total : ℚ
deriving DecidableEq

/-- `get_disk_usage` (driver lines 282-292); the argument holds the total
and used byte counts from `shutil.disk_usage`. -/
def getDiskUsage (raw : Option (ℤ × ℤ)) : DiskUsage :=
  match raw with
  | none => ⟨0, 0, 0⟩
  | some (total, used) =>
    let totalGb : ℚ := (total : ℚ) / (1024 ^ 3)
    let usedGb : ℚ := (used : ℚ) / (1024 ^ 3)
    match pydiv (used : ℚ) (total : ℚ) with
    | none => ⟨0, 0, 0⟩
    | some q => ⟨pyRound1 (q * 100), pyRound1 usedGb, pyRound1 totalGb⟩

/-- `get_hostname` (driver lines 295-301); the argument is the raw content
of /etc/hostname, stripped on success. -/
def getHostname (raw : Option String) : String :=
  match raw with
  | none => "RPi5"
  | some s => s.trim

/-- `get_uptime` (driver lines 304-320); the argument is
`int(float(f.read().split()[0]))`, the whole-second uptime, never negative. -/
def getUptime (raw : Option ℕ) : String :=
  match raw with
  | none => "N/A"
  | some uptimeSeconds =>
    let days := uptimeSeconds / 86400
    let hours := uptimeSeconds % 86400 / 3600
    let minutes := uptimeSeconds % 3600 / 60
    if 0 < days then toString days ++ "d " ++ toString hours ++ "h"
    else if 0 < hours then toString hours ++ "h " ++ toString minutes ++ "m"
    else toString minutes ++ "m"

/-- `get_ip_address` (driver lines 323-333); the argument is the local
socket address on success. -/
def getIpAddress (raw : Option String) : String :=
  match raw with
  | none => "N/A"
  | some ip => ip

/-- The page-sequencer state shared by the dashboards: the index of the
current page and the time at which it was entered. -/
structure PageState where
  currentPage : ℕ
  pageStartTime : ℚ
deriving DecidableEq

/-- `update_page` (carousel dashboard lines 203-208, premium dashboard lines
624-629): if the time elapsed since the page was entered is at least the
configured page duration, advance the index by one with wraparound over the
page list and restamp the entry time with the current clock. -/
def updatePage (numPages : ℕ) (pageDuration : ℚ) (s : PageState) (now : ℚ) :
    PageState :=
  if pageDuration ≤ now - s.pageStartTime then
    ⟨(s.currentPage + 1) % numPages, now⟩
  else s

/-- The y-coordinate computed for one sample by the line graphs:
`y + height - int((value / max_val) * height)` (carousel dashboard lines
125, 128, 142; pro dashboard lines 162, 165, 176).  Only evaluated behind
the callers' zero-divisor guard. -/
def graphY (y height : ℤ) (v maxVal : ℚ) : ℤ :=
  y + height - pyInt (v / maxVal * height)

/-- `CarouselDashboard.draw_graph`
(src/dashboards/st7789_carousel_dashboard.py lines 99-144).  Fewer than two
samples: immediate return with nothing drawn.  A zero `max_val` with two or
more samples reaches `values[i] / max_val` and raises (`none`).  Otherwise
the calls are: background, grid lines, the two axes, the clipped data
segments with every-4th-point markers, and the incoming-point marker. -/
def drawGraphCarousel (x y width height : ℤ) (data : List ℚ) (maxVal : ℚ)
    (color : Color) (animationFrame : ℤ) : Option (List DrawCall) :=
  if data.length < 2 then some []
  else if maxVal = 0 then none
  else
    let values := data
    let animationShift := animationFrame
    let pointWidth : ℚ := (width : ℚ) / (values.length : ℚ)
    let background :=
      [drawRectangle x y (x + width) (y + height) none none (some BLACK)]
    let grid := (pyRange 0 height 20).map (fun i =>
      drawLine x (y + i) (x + width) (y + i) (some (30, 30, 30)) 1)
    let axes :=
      [drawLine x (y + height) (x + width) (y + height) (some color) 2,
       drawLine x y x (y + height) (some color) 2]
    let segments := ((List.range (values.length - 1)).map (fun (i : ℕ) =>
      let x1 : ℤ := x + pyInt ((i : ℚ) * pointWidth) - animationShift
      let y1 : ℤ := graphY y height (values.getD i 0) maxVal
      let x2 : ℤ := x + pyInt (((i : ℚ) + 1) * pointWidth) - animationShift
      let y2 : ℤ := graphY y height (values.getD (i + 1) 0) maxVal
      if x ≤ x2 ∧ x1 ≤ x + width then
        [drawLine x1 y1 x2 y2 (some color) 2] ++
        (if i % 4 = 0 then
          [drawRectangle (x1 - 2) (y1 - 2) (x1 + 2) (y1 + 2)
            none none (some color)]
        else [])
      else [])).flatten
    let incoming :=
      if 0 < values.length then
        let newX : ℤ := x + width - animationShift
        let newY : ℤ := graphY y height (values.getLastD 0) maxVal
        if x ≤ newX ∧ newX ≤ x + width then
          [drawRectangle (newX - 2) (newY - 2) (newX + 2) (newY + 2)
            none none (some color)]
        else []
      else []
    some (background ++ grid ++ axes ++ segments ++ incoming)

/-- `CarouselProDashboard.draw_graph`
(src/dashboards/st7789_carousel_dashboard_pro.py lines 140-179).  Same
structure as the carousel variant without the animation shift, and with a
pulsing latest-point marker centered at `x + width - point_width / 2`. -/
def drawGraphPro (x y width height : ℤ) (data : List ℚ) (maxVal : ℚ)
    (color : Color) (animationCounter : ℤ) : Option (List DrawCall) :=
  if data.length < 2 then some []
  else if maxVal = 0 then none
  else
    let values := data
    let pointWidth : ℚ := (width : ℚ) / (values.length : ℚ)
    let background :=
      [drawRectangle x y (x + width) (y + height) none none (some BLACK)]
    let grid := (pyRange 0 height 20).map (fun i =>
      drawLine x (y + i) (x + width) (y + i) (some (30, 30, 30)) 1)
    let axes :=
      [drawLine x (y + height) (x + width) (y + height) (some color) 2,
       drawLine x y x (y + height) (some color) 2]
    let segments := ((List.range (values.length - 1)).map (fun (i : ℕ) =>
      let x1 : ℤ := x + pyInt ((i : ℚ) * pointWidth)
      let y1 : ℤ := graphY y height (values.getD i 0) maxVal
      let x2 : ℤ := x + pyInt (((i : ℚ) + 1) * pointWidth)
      let y2 : ℤ := graphY y height (values.getD (i + 1) 0) maxVal
      if x ≤ x2 ∧ x1 ≤ x + width then
        [drawLine x1 y1 x2 y2 (some color) 2] ++
        (if i % 4 = 0 then
          [drawRectangle (x1 - 2) (y1 - 2) (x1 + 2) (y1 + 2)
            none none (some color)]
        else [])
      else [])).flatten
    let pulse :=
      if 0 < values.length then
        let newX : ℚ := (x : ℚ) + (width : ℚ) - pointWidth / 2
        let newY : ℤ := graphY y height (values.getLastD 0) maxVal
        let pulseSize : ℤ := 2 + animationCounter % 5
        [drawRectangle (newX - (pulseSize : ℚ)) ((newY : ℚ) - (pulseSize : ℚ))
          (newX + (pulseSize : ℚ)) ((newY : ℚ) + (pulseSize : ℚ))
          none none (some color)]
      else []
    some (background ++ grid ++ axes ++ segments ++ pulse)

/-- `PremiumDashboard.draw_smooth_area_graph`
(src/dashboards/st7789_premium_dashboard.py lines 163-229): background,
gradient top section, grid, axes with glow, the smooth curve with a
gradient fill under each segment (carrying the previous point through the
loop), then the animated glow rings and markers on the latest point. -/
def drawSmoothAreaGraph (x y width height : ℤ) (data : List ℚ) (maxVal : ℚ)
    (color : Color) (animationCounter : ℤ) : Option (List DrawCall) :=
  if data.length < 2 then some []
  else if maxVal = 0 then none
  else
    let values := data
    let background :=
      [drawRectangle x y (x + width) (y + height) none none (some BLACK)]
    let gradientTop := (pyRange 0 (min (pyFloorDiv height 4) height) 1).map
      (fun i =>
        let shade : ℤ := 15 - pyFloorDiv (i * 10) (max 1 (pyFloorDiv height 4))
        drawLine x (y + i) (x + width) (y + i) (some (shade, shade, shade)) 1)
    let grid := (pyRange 0 height 10).map (fun i =>
      let opacity : ℤ := if i % 20 = 0 then 20 else 10
      drawLine x (y + i) (x + width) (y + i)
        (some (opacity, opacity, opacity)) 1)
    let axes :=
      [drawLine x (y + height) (x + width) (y + height) (some color) 3,
       drawLine x y x (y + height) (some color) 3,
       drawLine (x + 1) (y + height + 1) (x + width) (y + height + 1)
         (some (30, 30, 30)) 1,
       drawLine (x + 1) (y + 1) (x + 1) (y + height) (some (30, 30, 30)) 1]
    let pointWidth : ℚ := (width : ℚ) / (values.length : ℚ)
    let curve := ((List.range values.length).foldl (fun (acc : ℤ × ℤ × List DrawCall) (i : ℕ) =>
      let prevX := acc.1
      let prevY := acc.2.1
      let x1 : ℤ := x + pyInt ((i : ℚ) * pointWidth)
      let y1 : ℤ := graphY y height (values.getD i 0) maxVal
      let out :=
        if 0 < i then
          acc.2.2 ++ [drawLine prevX prevY x1 y1 (some color) 3] ++
          (pyRange prevY (y + height) 1).map (fun fillY =>
            let alpha : ℚ :=
              ((fillY : ℚ) - (prevY : ℚ)) /
                ((max 1 (y + height - prevY) : ℤ) : ℚ)
            let shade : ℤ := pyInt (alpha * 40)
            drawLine prevX fillY x1 fillY (some (shade, shade, shade)) 1)
        else acc.2.2
      (x1, y1, out)) ((x, y + height, []) : ℤ × ℤ × List DrawCall)).2.2
    let glowBlock :=
      if 0 < values.length then
        let newX : ℚ := (x : ℚ) + (width : ℚ) - pointWidth / 2
        let newY : ℤ := graphY y height (values.getLastD 0) maxVal
        let glow : ℤ := 4 + animationCounter % 5
        ((pyRange glow 0 (-1)).map (fun (i : ℤ) =>
          let ringColor : Color :=
            (pyInt ((color.1 : ℚ) * ((i : ℚ) / (glow : ℚ))),
             pyInt ((color.2.1 : ℚ) * ((i : ℚ) / (glow : ℚ))),
             pyInt ((color.2.2 : ℚ) * ((i : ℚ) / (glow : ℚ))))
          drawRectangle (newX - (i : ℚ) - 1) ((newY : ℚ) - (i : ℚ) - 1)
            (newX + (i : ℚ) + 1) ((newY : ℚ) + (i : ℚ) + 1)
            none (some ringColor) none)) ++
        [drawRectangle (newX - 4) ((newY : ℚ) - 4) (newX + 4) ((newY : ℚ) + 4)
           none none (some color),
         drawRectangle (newX - 3) ((newY : ℚ) - 3) (newX + 3) ((newY : ℚ) + 3)
           none (some WHITE) none]
      else []
    some (background ++ gradientTop ++ grid ++ axes ++ curve ++ glowBlock)

/-- `PremiumDashboard.draw_bar_chart`
(src/dashboards/st7789_premium_dashboard.py lines 349-402).  Note the guard
admits a single sample (`if len(data) < 1: return`): with one sample the
background, grid, axes and one bar are all drawn.  A zero `max_val` with at
least one sample reaches `val / max_val` and raises (`none`). -/
def drawBarChart (x y width height : ℤ) (data : List ℚ) (maxVal : ℚ)
    (color : Color) : Option (List DrawCall) :=
  if data.length < 1 then some []
  else if maxVal = 0 then none
  else
    let values := data
    let background :=
      [drawRectangle x y (x + width) (y + height) none none (some BLACK)]
    let gradientTop := (pyRange 0 (min (pyFloorDiv height 4) height) 1).map
      (fun i =>
        let shade : ℤ := 15 - pyFloorDiv (i * 10) (max 1 (pyFloorDiv height 4))
        drawLine x (y + i) (x + width) (y + i) (some (shade, shade, shade)) 1)
    let grid := (pyRange 0 height 10).map (fun i =>
      let opacity : ℤ := if i % 20 = 0 then 25 else 12
      drawLine x (y + i) (x + width) (y + i)
        (some (opacity, opacity, opacity)) 1)
    let axes :=
      [drawLine x (y + height) (x + width) (y + height) (some color) 3,
       drawLine x y x (y + height) (some color) 3,
       drawLine (x + 1) (y + height + 1) (x + width) (y + height + 1)
         (some (30, 30, 30)) 1,
       drawLine (x + 1) (y + 1) (x + 1) (y + height) (some (30, 30, 30)) 1]
    let barWidth : ℚ := (width : ℚ) / (values.length : ℚ)
    let bars := ((List.range values.length).map (fun (i : ℕ) =>
      let val := values.getD i 0
      let barX : ℤ := x + pyInt ((i : ℚ) * barWidth)
      let barHeight : ℤ := pyInt (val / maxVal * (height : ℚ))
      let barY : ℤ := y + height - barHeight
      [drawRectangle (barX + 2) (barY + 1) (barX + pyInt barWidth - 2)
         (y + height + 1) none none (some (20, 20, 20)),
       drawRectangle (barX + 2) barY (barX + pyInt barWidth - 2) (y + height)
         none (some WHITE) (some color)] ++
      ((pyRange 0 (pyFloorDiv barHeight 3) 1).map (fun h2 =>
        let alpha : ℚ := (h2 : ℚ) / ((max 1 (pyFloorDiv barHeight 3) : ℤ) : ℚ)
        let shade : ℤ := pyInt (150 * alpha)
        let highlightColor : Color :=
          (min 255 shade, min 255 shade, min 255 shade)
        drawLine (barX + 3) (barY + h2) (barX + pyInt barWidth - 3)
          (barY + h2) (some highlightColor) 1)) ++
      [drawLine (barX + 2) (barY - 1) (barX + pyInt barWidth - 2) (barY - 1)
        (some WHITE) 1])).flatten
    some (background ++ gradientTop ++ grid ++ axes ++ bars)

/-- `get_color_for_value` (src/dashboards/st7789_stats_dashboard.py lines
67-74, identical in st7789_stats_dashboard_enhanced.py lines 79-86). -/
def getColorForValue (value : ℚ) (thresholds : ℚ × ℚ) : Color :=
  if thresholds.2 ≤ value then RED
  else if thresholds.1 ≤ value then YELLOW
  else GREEN

/-- The progress-bar fill width `int((bar_width - 2) * min(value, 100) / 100)`
computed by `draw_stats_row` (st7789_stats_dashboard.py line 128) and by
`draw_full_stat_bar` (st7789_stats_dashboard_enhanced.py line 192). -/
def barFillWidth (barWidth : ℤ) (value : ℚ) : ℤ :=
  pyInt (((barWidth : ℚ) - 2) * min value 100 / 100)

/-- `StatsDisplay.draw_stats_row` (st7789_stats_dashboard.py lines 95-133):
label text, value text, bar outline, then — only when the computed fill
width is positive — the fill rectangle. -/
def drawStatsRow (y : ℤ) (label : String) (value : ℚ) (unit : String)
    (threshold : ℚ × ℚ) : List DrawCall :=
  let color := getColorForValue value threshold
  let barX : ℤ := 120
  let barWidth : ℤ := 115
  let barHeight : ℤ := 6
  let fillW := barFillWidth barWidth value
  [drawText 5 y (label ++ ":") (some Font.small) (some CYAN) "lt",
   drawText 70 y (pyFloatRepr value ++ unit) (some Font.small) (some color) "lt",
   drawRectangle barX (y - 1) (barX + barWidth) (y + barHeight - 1)
     none (some WHITE) none] ++
  (if 0 < fillW then
    [drawRectangle (barX + 1) y (barX + fillW) (y + barHeight - 2)
      none none (some color)]
  else [])

/-- `EnhancedStatsDisplay.draw_full_stat_bar`
(st7789_stats_dashboard_enhanced.py lines 151-198): label text, value text,
bar background, then — only when the computed fill width is positive — the
fill rectangle in the threshold-selected color. -/
def drawFullStatBar (x y width : ℤ) (label : String) (value : ℚ)
    (unit : String) (colorNormal colorWarn colorCrit : Color) : List DrawCall :=
  let barX : ℤ := x
  let barY : ℤ := y + 10
  let barWidth : ℤ := width
  let barHeight : ℤ := 8
  let barColor :=
    if (80 : ℚ) ≤ value then colorCrit
    else if (50 : ℚ) ≤ value then colorWarn
    else colorNormal
  let fillW := barFillWidth barWidth value
  [drawText x y (label ++ ":") (some Font.small) (some CYAN) "lt",
   drawText (x + 70) y (pyFloatRepr value ++ unit) (some Font.small)
     (some (getColorForValue value (50, 80))) "lt",
   drawRectangle barX barY (barX + barWidth) (barY + barHeight)
     none (some WHITE) (some BLACK)] ++
  (if 0 < fillW then
    [drawRectangle (barX + 1) (barY + 1) (barX + fillW) (barY + barHeight - 1)
      none none (some barColor)]
  else [])

/-! Helper lemmas about the Python arithmetic primitives. -/

theorem pyInt_intCast (n : ℤ) : pyInt (n : ℚ) = n := by
  unfold pyInt
  split
  · exact Int.ceil_intCast n
  · exact Int.floor_intCast n

theorem pyInt_zero : pyInt 0 = 0 := by
  simpa using pyInt_intCast 0

theorem pyInt_nonneg {q : ℚ} (h : 0 ≤ q) : 0 ≤ pyInt q := by
  unfold pyInt
  rw [if_neg (not_lt.mpr h)]
  exact Int.le_floor.mpr (by exact_mod_cast h)

theorem pyInt_le_of_le {q : ℚ} {m : ℤ} (h0 : 0 ≤ q) (h : q ≤ (m : ℚ)) :
    pyInt q ≤ m := by
  unfold pyInt
  rw [if_neg (not_lt.mpr h0)]
  calc ⌊q⌋ ≤ ⌊(m : ℚ)⌋ := Int.floor_le_floor h
  _ = m := Int.floor_intCast m

/-! Claim C1: the RGB888 to RGB565 conversion. -/

theorem shiftRight_lt_of_lt_256 {r k b : ℕ} (hr : r < 256) (hk : 2 ^ k * b = 256)
    (hb : 0 < b) : r >>> k < b := by
  rw [Nat.shiftRight_eq_div_pow]
  refine Nat.div_lt_of_lt_mul ?_
  omega

theorem rgb565Word_eq_add (r g b : ℕ) (hr : r < 256) (hg : g < 256)
    (hb : b < 256) :
    rgb565Word r g b = (r >>> 3) * 2 ^ 11 + (g >>> 2) * 2 ^ 5 + (b >>> 3) := by
  have ha : r >>> 3 < 32 := shiftRight_lt_of_lt_256 hr (by norm_num) (by norm_num)
  have hv : g >>> 2 < 64 := shiftRight_lt_of_lt_256 hg (by norm_num) (by norm_num)
  have hc : b >>> 3 < 32 := shiftRight_lt_of_lt_256 hb (by norm_num) (by norm_num)
  unfold rgb565Word
  rw [Nat.shiftLeft_eq, Nat.shiftLeft_eq]
  rw [Nat.mul_comm (r >>> 3) (2 ^ 11)]
  rw [← Nat.mul_add_lt_is_or (i := 11) (b := (g >>> 2) * 2 ^ 5)
    (by omega) (r >>> 3)]
  have h2 : 2 ^ 11 * (r >>> 3) + (g >>> 2) * 2 ^ 5
      = 2 ^ 5 * (2 ^ 6 * (r >>> 3) + (g >>> 2)) := by ring
  rw [h2, ← Nat.mul_add_lt_is_or (i := 5) hc (2 ^ 6 * (r >>> 3) + (g >>> 2))]

theorem rgb565_hi_lo (w : ℕ) : (w >>> 8) * 256 + (w &&& 0xFF) = w := by
  rw [Nat.shiftRight_eq_div_pow]
  have h : w &&& 0xFF = w % 256 := by
    have := Nat.and_pow_two_sub_one_eq_mod w 8
    norm_num at this
    exact this
  rw [h]
  omega

/-- Claim C1: `_convert_to_rgb565` packs every RGB888 pixel as 5 bits of red,
6 bits of green and 5 bits of blue obtained by truncating the channels' low
bits (`r >> 3`, `g >> 2`, `b >> 3`) into one 16-bit word whose two output
bytes are emitted big-endian (high byte first, and they recompose to the
word); pure white maps to 0xFFFF and pure black to 0x0000.  The converter is
a plain function of the byte list, hence deterministic and effect-free. -/
theorem convert_rgb565_packs (r g b : ℕ) (rest : List ℕ)
    (hr : r < 256) (hg : g < 256) (hb : b < 256) :
    convertToRGB565 (r :: g :: b :: rest) =
      (convertToRGB565 rest).map
        (fun t => (rgb565Word r g b) >>> 8 :: ((rgb565Word r g b) &&& 0xFF) :: t)
    ∧ rgb565Word r g b = (r >>> 3) * 2 ^ 11 + (g >>> 2) * 2 ^ 5 + (b >>> 3)
    ∧ rgb565Word r g b < 2 ^ 16
    ∧ ((rgb565Word r g b) >>> 8) * 256 + ((rgb565Word r g b) &&& 0xFF)
        = rgb565Word r g b
    ∧ rgb565Word 255 255 255 = 0xFFFF
    ∧ rgb565Word 0 0 0 = 0x0000 := by
  have ha : r >>> 3 < 32 := shiftRight_lt_of_lt_256 hr (by norm_num) (by norm_num)
  have hv : g >>> 2 < 64 := shiftRight_lt_of_lt_256 hg (by norm_num) (by norm_num)
  have hc : b >>> 3 < 32 := shiftRight_lt_of_lt_256 hb (by norm_num) (by norm_num)
  refine ⟨rfl, rgb565Word_eq_add r g b hr hg hb, ?_, rgb565_hi_lo _, by decide, by decide⟩
  rw [rgb565Word_eq_add r g b hr hg hb]
  omega

/-- Witness for C1 at pure white and pure black pixels. -/
theorem convert_rgb565_packs_witness :
    rgb565Word 255 255 255 = 0xFFFF ∧ rgb565Word 0 0 0 = 0x0000 ∧
    rgb565Word 255 0 0 = (255 >>> 3) * 2 ^ 11 + (0 >>> 2) * 2 ^ 5 + (0 >>> 3) := by
  have h := convert_rgb565_packs 255 0 0 [] (by decide) (by decide) (by decide)
  exact ⟨h.2.2.2.2.1, h.2.2.2.2.2, h.2.1⟩

/-! Claim C2: the bulk image-data transfer chunking. -/

theorem sendImageDataChunks_nil : sendImageDataChunks [] = [] := by
  rw [sendImageDataChunks]
  simp

theorem sendImageDataChunks_cons (l : List ℕ) (h : l ≠ []) :
    sendImageDataChunks l
      = l.take chunkSize :: sendImageDataChunks (l.drop chunkSize) := by
  rw [sendImageDataChunks]
  simp [h]

theorem sendImageDataChunks_flatten (l : List ℕ) :
    (sendImageDataChunks l).flatten = l := by
  induction l using sendImageDataChunks.induct with
  | case1 => rw [sendImageDataChunks_nil]; rfl
  | case2 l hl ih =>
    rw [sendImageDataChunks_cons l hl]
    simp [ih]

theorem sendImageDataChunks_le (l : List ℕ) :
    ∀ c ∈ sendImageDataChunks l, c.length ≤ chunkSize := by
  induction l using sendImageDataChunks.induct with
  | case1 => rw [sendImageDataChunks_nil]; simp
  | case2 l hl ih =>
    rw [sendImageDataChunks_cons l hl]
    intro c hcmem
    rcases List.mem_cons.mp hcmem with hc | hc
    · subst hc; simp
    · exact ih c hc

theorem sendImageDataChunks_ne_nil (l : List ℕ) (h : l ≠ []) :
    sendImageDataChunks l ≠ [] := by
  rw [sendImageDataChunks_cons l h]
  simp

theorem sendImageDataChunks_dropLast (l : List ℕ) :
    ∀ c ∈ (sendImageDataChunks l).dropLast, c.length = chunkSize := by
  induction l using sendImageDataChunks.induct with
  | case1 => rw [sendImageDataChunks_nil]; simp
  | case2 l hl ih =>
    rw [sendImageDataChunks_cons l hl]
    by_cases hd : l.drop chunkSize = []
    · rw [hd, sendImageDataChunks_nil]
      simp
    · rw [List.dropLast_cons_of_ne_nil (sendImageDataChunks_ne_nil _ hd)]
      intro c hcmem
      rcases List.mem_cons.mp hcmem with hc | hc
      · subst hc
        have hlen : chunkSize < l.length := by
          by_contra hcon
          exact hd (List.drop_eq_nil_of_le (by omega))
        simp [List.length_take]
        omega
      · exact ih c hc

/-- Claim C2: concatenating the chunks written by `_send_image_data`, in
write order, restores the input byte sequence exactly; every chunk holds at
most 4096 bytes; and every chunk except possibly the last holds exactly
4096 bytes. -/
theorem send_image_data_chunking (l : List ℕ) :
    (sendImageDataChunks l).flatten = l
    ∧ (∀ c ∈ sendImageDataChunks l, c.length ≤ 4096)
    ∧ (∀ c ∈ (sendImageDataChunks l).dropLast, c.length = 4096) :=
  ⟨sendImageDataChunks_flatten l, sendImageDataChunks_le l,
    sendImageDataChunks_dropLast l⟩

/-- Witness for C2 on a 5000-byte buffer (one full chunk plus a 904-byte
tail): concatenation restores the buffer. -/
theorem send_image_data_chunking_witness :
    (sendImageDataChunks (List.replicate 5000 7)).flatten
      = List.replicate 5000 7 :=
  (send_image_data_chunking (List.replicate 5000 7)).1

/-! Claim C3: the bounded metric-history ring. -/

theorem dequeAppend_length_le (q : List ℚ) (v : ℚ) (h : q.length ≤ 20) :
    (dequeAppend q v).length ≤ 20 := by
  unfold dequeAppend historyMaxlen
  split
  · simp
    omega
  · simp [List.length_tail]
    omega

theorem foldl_dequeAppend_length_le (l : List ℚ) :
    ∀ q : List ℚ, q.length ≤ 20 → (List.foldl dequeAppend q l).length ≤ 20 := by
  induction l with
  | nil => intro q hq; simpa using hq
  | cons a t ih =>
    intro q hq
    exact ih (dequeAppend q a) (dequeAppend_length_le q a hq)

theorem foldl_dequeAppend_order (l : List ℚ) :
    ∀ q : List ℚ, q.length + l.length ≤ 20 →
      List.foldl dequeAppend q l = q ++ l := by
  induction l with
  | nil => intro q _; simp
  | cons a t ih =>
    intro q hq
    have hlt : q.length < historyMaxlen := by
      unfold historyMaxlen
      simp at hq
      omega
    have hstep : dequeAppend q a = q ++ [a] := by
      unfold dequeAppend
      rw [if_pos hlt]
    simp only [List.foldl_cons, hstep]
    rw [ih (q ++ [a]) (by simp at hq ⊢; omega)]
    simp

/-- Claim C3: the history ring of capacity 20 never stores more than 20
samples; an append at capacity evicts exactly the oldest (leftmost) element
and keeps the remainder in order; and pushing exactly 20 samples into an
empty ring then reading returns them in their original insertion order. -/
theorem history_ring_spec (pushes : List ℚ) :
    (List.foldl dequeAppend [] pushes).length ≤ 20
    ∧ (∀ (q : List ℚ) (v : ℚ), q.length = 20 → dequeAppend q v = q.tail ++ [v])
    ∧ (pushes.length = 20 → List.foldl dequeAppend [] pushes = pushes) := by
  refine ⟨foldl_dequeAppend_length_le pushes [] (by simp), ?_, ?_⟩
  · intro q v hq
    unfold dequeAppend
    rw [if_neg]
    unfold historyMaxlen
    omega
  · intro hlen
    simpa using foldl_dequeAppend_order pushes [] (by simp [hlen])

/-- Witness for C3: twenty pushes are returned in insertion order, and an
append at capacity drops exactly the head. -/
theorem history_ring_spec_witness :
    List.foldl dequeAppend []
        ([0, 1, 2, 3, 4, 5, 6, 7, 8, 9, 10, 11, 12, 13, 14, 15, 16, 17, 18, 19] : List ℚ)
      = [0, 1, 2, 3, 4, 5, 6, 7, 8, 9, 10, 11, 12, 13, 14, 15, 16, 17, 18, 19]
    ∧ dequeAppend
        ([0, 1, 2, 3, 4, 5, 6, 7, 8, 9, 10, 11, 12, 13, 14, 15, 16, 17, 18, 19] : List ℚ) 99
      = ([0, 1, 2, 3, 4, 5, 6, 7, 8, 9, 10, 11, 12, 13, 14, 15, 16, 17, 18, 19] : List ℚ).tail
          ++ [99] := by
  exact ⟨(history_ring_spec
      ([0, 1, 2, 3, 4, 5, 6, 7, 8, 9, 10, 11, 12, 13, 14, 15, 16, 17, 18, 19] : List ℚ)).2.2 rfl,
    (history_ring_spec ([] : List ℚ)).2.1 _ 99 rfl⟩

/-! Claim C7: the page sequencer. -/

/-- Claim C7: on a tick at time `now`, `update_page` advances the page index
by exactly one modulo the page count and restamps the entry time if and only
if the elapsed time on the page is at least the configured duration; it
leaves the state untouched otherwise, and from the last page it wraps to
index 0. -/
theorem update_page_spec (numPages : ℕ) (pageDuration : ℚ) (s : PageState)
    (now : ℚ) (hL : 0 < numPages) :
    (pageDuration ≤ now - s.pageStartTime →
      updatePage numPages pageDuration s now
        = ⟨(s.currentPage + 1) % numPages, now⟩)
    ∧ (now - s.pageStartTime < pageDuration →
      updatePage numPages pageDuration s now = s)
    ∧ (s.currentPage = numPages - 1 → pageDuration ≤ now - s.pageStartTime →
      updatePage numPages pageDuration s now = ⟨0, now⟩) := by
  refine ⟨?_, ?_, ?_⟩
  · intro h
    unfold updatePage
    rw [if_pos h]
  · intro h
    unfold updatePage
    rw [if_neg (not_le.mpr h)]
  · intro hlast h
    unfold updatePage
    rw [if_pos h, hlast]
    have : (numPages - 1 + 1) % numPages = 0 := by
      rw [Nat.sub_add_cancel hL]
      exact Nat.mod_self numPages
    rw [this]

/-- Witness for C7: with 3 pages and a 5-second duration, a tick at elapsed
time 5 on the last page wraps to page 0 restamping the clock, and a tick at
elapsed time 4 changes nothing. -/
theorem update_page_spec_witness :
    updatePage 3 5 ⟨2, 0⟩ 5 = ⟨0, 5⟩ ∧ updatePage 3 5 ⟨2, 0⟩ 4 = ⟨2, 0⟩ := by
  constructor
  · exact (update_page_spec 3 5 ⟨2, 0⟩ 5 (by norm_num)).2.2 rfl (by norm_num)
  · exact (update_page_spec 3 5 ⟨2, 0⟩ 4 (by norm_num)).2.1 (by norm_num)

/-! Claim C8: metric getters degrade to fixed defaults on failure. -/

/-- Claim C8 (amended): when its underlying source fails to resolve, each
metric getter returns a fixed default instead of raising — 0 for the numeric
fields, the all-zero record for disk usage, "N/A" for uptime and IP, and
"RPi5" (not "N/A" or 0) for the hostname. -/
theorem metric_getters_default :
    getCpuUsage none = 0
    ∧ getMemoryUsage none = 0
    ∧ getTemperature none = 0
    ∧ getGpuTemperature none = 0
    ∧ getDiskUsage none = ⟨0, 0, 0⟩
    ∧ getHostname none = "RPi5"
    ∧ getUptime none = "N/A"
    ∧ getIpAddress none = "N/A" :=
  ⟨rfl, rfl, rfl, rfl, rfl, rfl, rfl, rfl⟩

/-- Counterexample for C8 as stated: the hostname getter's failure default
is the string "RPi5", which is neither "N/A" nor a zero. -/
theorem hostname_default_not_na :
    getHostname none = "RPi5"
    ∧ getHostname none ≠ "N/A"
    ∧ getHostname none ≠ "0" := by
  refine ⟨rfl, by decide, by decide⟩

/-! Claims C4 and C5: the graph rasterizer guards. -/

/-- Claim C4 (amended): with fewer than two samples the line-style graphs
(carousel and pro variants) and the area-style graph issue no draw call at
all; the bar chart issues no draw call only for an empty history — its
guard is `len(data) < 1`, so a single sample does draw. -/
theorem graph_small_history_noop (x y w h : ℤ) (data : List ℚ) (mv : ℚ)
    (c : Color) (a : ℤ) (hdata : data.length < 2) :
    drawGraphCarousel x y w h data mv c a = some []
    ∧ drawSmoothAreaGraph x y w h data mv c a = some []
    ∧ drawGraphPro x y w h data mv c a = some []
    ∧ (data = [] → drawBarChart x y w h data mv c = some []) := by
  refine ⟨?_, ?_, ?_, ?_⟩
  · unfold drawGraphCarousel
    rw [if_pos hdata]
  · unfold drawSmoothAreaGraph
    rw [if_pos hdata]
  · unfold drawGraphPro
    rw [if_pos hdata]
  · intro hnil
    subst hnil
    unfold drawBarChart
    rw [if_pos (by simp)]

/-- Witness for C4 (amended) at a one-sample history and an empty one. -/
theorem graph_small_history_noop_witness :
    drawGraphCarousel 0 0 210 110 [3] 100 RED 0 = some []
    ∧ drawSmoothAreaGraph 0 0 210 110 [3] 100 RED 0 = some []
    ∧ drawGraphPro 0 0 210 110 [3] 100 RED 0 = some []
    ∧ drawBarChart 0 0 210 110 [] 100 RED = some [] := by
  have h := graph_small_history_noop 0 0 210 110 [3] 100 RED 0 (by decide)
  have hempty := graph_small_history_noop 0 0 210 110 [] 100 RED 0 (by decide)
  exact ⟨h.1, h.2.1, h.2.2.1, hempty.2.2.2 rfl⟩

/-- Counterexample for C4 as stated: `draw_bar_chart` on a one-sample
history completes without error and does issue draw calls (background,
grids, axes and one bar), so the buffer region is not left unchanged. -/
theorem bar_chart_single_sample_draws :
    drawBarChart 0 0 10 10 [5] 100 GREEN ≠ some []
    ∧ (drawBarChart 0 0 10 10 [5] 100 GREEN).isSome = true := by
  constructor
  · decide
  · decide

/-- Claim C5: a zero value ceiling is not guarded anywhere — as soon as a
graph routine reaches its sample loop it evaluates `value / max_val` and a
`ZeroDivisionError` propagates (`none`), instead of the no-op the spec
requires.  Shown here on the carousel line graph with two samples and on
the premium bar chart with one sample. -/
theorem zero_ceiling_division_raises :
    drawGraphCarousel 0 0 10 10 [1, 2] 0 RED 0 = none
    ∧ drawBarChart 0 0 10 10 [1] 0 RED = none := by
  constructor
  · unfold drawGraphCarousel
    rw [if_neg (by simp), if_pos rfl]
  · unfold drawBarChart
    rw [if_neg (by simp), if_pos rfl]

/-! Claim C6: line-graph scaling over a region. -/

/-- Claim C6: for the pro line graph over a region with top edge `y` and
height `height` (so the region bottom row is `y + height`) and a positive
ceiling `c`, the sample sequence `[0, c]` yields the computed y-coordinate
`y + height` for the zero sample and `y` for the ceiling sample (exactly,
hence within the claimed ±1 pixel), and the graph emits the corresponding
data segment whose endpoints sit at the linear index map `x + int(i * width/n)`
for `i = 0, 1` of `n = 2` samples. -/
theorem pro_graph_endpoints (x y width height : ℤ) (c : ℚ) (color : Color)
    (a : ℤ) (hc : 0 < c) (hw : 0 ≤ width) :
    graphY y height 0 c = y + height
    ∧ graphY y height c c = y
    ∧ ∃ calls, drawGraphPro x y width height [0, c] c color a = some calls
        ∧ drawLine (x : ℚ) ((y + height : ℤ) : ℚ)
            ((x + pyInt ((width : ℚ) / 2) : ℤ) : ℚ) ((y : ℤ) : ℚ)
            (some color) 2 ∈ calls := by
  have hy0 : graphY y height 0 c = y + height := by
    simp [graphY, pyInt_zero]
  have hyc : graphY y height c c = y := by
    unfold graphY
    rw [div_self hc.ne', one_mul, pyInt_intCast]
    omega
  refine ⟨hy0, hyc, ?_⟩
  have hlen : ¬ (List.length [(0 : ℚ), c] < 2) := by simp
  unfold drawGraphPro
  rw [if_neg hlen, if_neg hc.ne']
  refine ⟨_, rfl, ?_⟩
  simp only [List.mem_append]
  refine Or.inl (Or.inr ?_)
  have h21 : ([0, c] : List ℚ).length - 1 = 1 := by simp
  have hr1 : List.range 1 = [0] := by decide
  rw [h21, hr1]
  simp only [List.map_cons, List.map_nil, List.flatten_cons, List.flatten_nil,
    List.append_nil]
  split_ifs with hcond
  · refine List.mem_append.mpr (Or.inl ?_)
    simp only [List.mem_singleton]
    norm_num [List.getD_cons_zero, List.getD_cons_succ, pyInt_zero, hy0, hyc]
  · exfalso
    apply hcond
    have hpw0 : pyInt ((0 : ℕ) * ((width : ℚ) / ([(0 : ℚ), c].length : ℚ))) = 0 := by
      simp [pyInt_zero]
    constructor
    · have hq : (0 : ℚ) ≤ ((0 : ℕ) + 1) * ((width : ℚ) / ([(0 : ℚ), c].length : ℚ)) := by
        simp
        apply div_nonneg
        · exact_mod_cast hw
        · norm_num
      have := pyInt_nonneg hq
      omega
    · rw [hpw0]
      omega

/-- Witness for C6 on the concrete region x=15, y=160, 210x110 with ceiling
100: the zero sample row is the region bottom 270 and the ceiling sample row
is the region top 160, and the emitted segment joins them. -/
theorem pro_graph_endpoints_witness :
    graphY 160 110 0 100 = 270
    ∧ graphY 160 110 100 100 = 160
    ∧ drawLine (15 : ℚ) (270 : ℚ) ((15 + pyInt ((210 : ℚ) / 2) : ℤ) : ℚ) (160 : ℚ)
        (some RED) 2 ∈ (drawGraphPro 15 160 210 110 [0, 100] 100 RED 0).getD [] := by
  obtain ⟨h1, h2, calls, hsome, hmem⟩ :=
    pro_graph_endpoints 15 160 210 110 100 RED 0 (by norm_num) (by norm_num)
  refine ⟨h1, h2, ?_⟩
  rw [hsome]
  simpa using hmem

/-! Claim C9: the progress bars of the stats dashboards. -/

theorem barFillWidth_nonneg (bw : ℤ) (value : ℚ) (hbw : 2 ≤ bw)
    (hv : 0 ≤ value) : 0 ≤ barFillWidth bw value := by
  unfold barFillWidth
  apply pyInt_nonneg
  have h1 : (0 : ℚ) ≤ min value 100 := le_min hv (by norm_num)
  have h2 : (0 : ℚ) ≤ (bw : ℚ) - 2 := by
    have : (2 : ℚ) ≤ (bw : ℚ) := by exact_mod_cast hbw
    linarith
  exact div_nonneg (mul_nonneg h2 h1) (by norm_num)

theorem barFillWidth_le (bw : ℤ) (value : ℚ) (hbw : 2 ≤ bw)
    (hv : 0 ≤ value) : barFillWidth bw value ≤ bw - 2 := by
  have h1 : (0 : ℚ) ≤ min value 100 := le_min hv (by norm_num)
  have h2 : (0 : ℚ) ≤ (bw : ℚ) - 2 := by
    have : (2 : ℚ) ≤ (bw : ℚ) := by exact_mod_cast hbw
    linarith
  unfold barFillWidth
  apply pyInt_le_of_le (div_nonneg (mul_nonneg h2 h1) (by norm_num))
  have hm : min value 100 ≤ 100 := min_le_right _ _
  have hmul : ((bw : ℚ) - 2) * min value 100 ≤ ((bw : ℚ) - 2) * 100 :=
    mul_le_mul_of_nonneg_left hm h2
  push_cast
  linarith

/-- Claim C9: both stats dashboards compute the fill width
`int((bar_width - 2) * min(value, 100) / 100)` of their horizontal progress
bars, so for every value ≥ 0 the fill is between 0 and `bar_width - 2`
pixels and never reaches past the bar outline even when the value exceeds
100; and the fill rectangle is emitted only when that width is positive —
a zero fill width draws no fill rectangle at all.  The draw lists of
`draw_stats_row` (bar width 115) and `draw_full_stat_bar` (bar width =
the `width` argument) are given in full. -/
theorem stats_bars_fill_clamped (yr : ℤ) (label unit : String) (value : ℚ)
    (threshold : ℚ × ℚ) (x yb width : ℤ) (cn cw cc : Color)
    (hval : 0 ≤ value) (hw : 2 ≤ width) :
    barFillWidth 115 value = pyInt (((115 : ℚ) - 2) * min value 100 / 100)
    ∧ 0 ≤ barFillWidth 115 value
    ∧ barFillWidth 115 value ≤ 115 - 2
    ∧ 0 ≤ barFillWidth width value
    ∧ barFillWidth width value ≤ width - 2
    ∧ drawStatsRow yr label value unit threshold
        = [drawText 5 yr (label ++ ":") (some Font.small) (some CYAN) "lt",
           drawText 70 yr (pyFloatRepr value ++ unit) (some Font.small)
             (some (getColorForValue value threshold)) "lt",
           drawRectangle 120 ((yr : ℚ) - 1) (120 + 115) ((yr : ℚ) + 6 - 1)
             none (some WHITE) none]
          ++ (if 0 < barFillWidth 115 value then
               [drawRectangle (120 + 1) yr ((120 + barFillWidth 115 value : ℤ) : ℚ)
                 ((yr : ℚ) + 6 - 2) none none
                 (some (getColorForValue value threshold))]
             else [])
    ∧ drawFullStatBar x yb width label value unit cn cw cc
        = [drawText x yb (label ++ ":") (some Font.small) (some CYAN) "lt",
           drawText (x + 70) yb (pyFloatRepr value ++ unit) (some Font.small)
             (some (getColorForValue value (50, 80))) "lt",
           drawRectangle x ((yb + 10 : ℤ) : ℚ) ((x + width : ℤ) : ℚ)
             ((yb + 10 : ℤ) + (8 : ℚ)) none (some WHITE) (some BLACK)]
          ++ (if 0 < barFillWidth width value then
               [drawRectangle ((x + 1 : ℤ) : ℚ) ((yb + 10 : ℤ) + (1 : ℚ))
                 ((x + barFillWidth width value : ℤ) : ℚ)
                 ((yb + 10 : ℤ) + (8 : ℚ) - 1) none none
                 (some (if (80 : ℚ) ≤ value then cc
                        else if (50 : ℚ) ≤ value then cw else cn))]
             else []) := by
  refine ⟨rfl, barFillWidth_nonneg 115 value (by norm_num) hval,
    barFillWidth_le 115 value (by norm_num) hval,
    barFillWidth_nonneg width value hw hval,
    barFillWidth_le width value hw hval, ?_, ?_⟩
  · simp only [drawStatsRow]
    push_cast
    norm_num
  · simp only [drawFullStatBar]
    push_cast
    norm_num

/-- Witness for C9 at the over-range value 150: the fill width stays within
the 113-pixel interior of the 115-pixel bar, and within `width - 2` for a
50-pixel-wide enhanced bar. -/
theorem stats_bars_fill_clamped_witness :
    0 ≤ barFillWidth 115 150 ∧ barFillWidth 115 150 ≤ 115 - 2
    ∧ 0 ≤ barFillWidth 50 150 ∧ barFillWidth 50 150 ≤ 50 - 2 := by
  have h := stats_bars_fill_clamped 0 "CPU" "%" 150 (50, 80) 0 0 50
    RED YELLOW GREEN (by norm_num) (by norm_num)
  exact ⟨h.2.1, h.2.2.1, h.2.2.2.1, h.2.2.2.2.1⟩

/-! Claim C10: the uptime formatting. -/

/-- Claim C10: on a successful read of `s` whole seconds, `get_uptime`
computes `d = s / 86400`, `h = s % 86400 / 3600`, `m = s % 3600 / 60` and
returns "<d>d <h>h" when `d > 0`, else "<h>h <m>m" when `h > 0`, else
"<m>m"; it is a plain function of `s`. -/
theorem get_uptime_format (s : ℕ) :
    getUptime (some s)
      = (if 0 < s / 86400 then
          toString (s / 86400) ++ "d " ++ toString (s % 86400 / 3600) ++ "h"
        else if 0 < s % 86400 / 3600 then
          toString (s % 86400 / 3600) ++ "h " ++ toString (s % 3600 / 60) ++ "m"
        else toString (s % 3600 / 60) ++ "m") := rfl

end ST7789
